import Mathlib

/-!
Verification development for the aurora-limitless-benchmark repository.

The definitions below are a shallow embedding of the TypeScript sources:
* `src/two-stage-benchmark.ts` (stage coordinator `runTwoStageBenchmark`),
* `src/two-stage-worker.ts` (worker units, abstracted as oracles),
* `src/types.ts` (result records, the per-worker statistics of the
  single-stage worker `runBenchmark`, and the CSV utilities
  `convertToCsvRow` / `escapeCsvValue`),
* `src/data-generator.ts` (the size-filling loop of `generateLargeJsonText`),
* `src/index.ts` (the single-stage aggregation in `runBenchmark`).

Numbers that are JavaScript `number`s carrying measurements (milliseconds,
megabytes, rates) are modelled as rationals; counters and indices are
naturals.  `Math.floor` on a non-negative quotient of naturals is natural
division.  Asynchronous worker calls (`runFileGeneration`,
`runCopyExecution`) are modelled by oracles: functions from the call
arguments to the settled result, so one benchmark run is a pure function
of the oracle environment.  Wall-clock readings (`Date.now()`) around the
copy phase are environment inputs.
-/

namespace Benchmark

/-- Embedding of `FileGenerationResult` from `src/types.ts`. -/
structure FileGenerationResult where
  workerId : Nat
  connectionId : Nat
  filePath : String
  recordsGenerated : Nat
  fileSizeMB : ℚ
  generationTimeMs : ℚ
  success : Bool
  error : Option String
  deriving Repr, DecidableEq

/-- Embedding of `CopyExecutionResult` from `src/types.ts`. -/
structure CopyExecutionResult where
  workerId : Nat
  connectionId : Nat
  filePath : String
  recordsInserted : Nat
  dataSizeMB : ℚ
  executionTimeMs : ℚ
  success : Bool
  error : Option String
  deriving Repr, DecidableEq

/-- The numeric fields of `BenchmarkConfig` (`src/types.ts`) consulted by
the two-stage and single-stage aggregation paths. -/
structure BenchmarkConfig where
  minWorkers : Nat
  connectionsPerWorker : Nat
  batchSize : Nat
  testDuration : Nat
  dataSizeMB : Nat
  deriving Repr, DecidableEq

/-- Embedding of `BenchmarkResult` from `src/types.ts`. -/
structure BenchmarkResult where
  timestamp : String
  workers : Nat
  connectionsPerWorker : Nat
  totalConnections : Nat
  batchSize : Nat
  duration : ℚ
  totalRecords : Nat
  totalDataSizeMB : ℚ
  throughputMBps : ℚ
  throughputRecordsPerSecond : ℚ
  avgLatencyMs : ℚ
  p50LatencyMs : ℚ
  p95LatencyMs : ℚ
  p99LatencyMs : ℚ
  minLatencyMs : ℚ
  maxLatencyMs : ℚ
  successCount : Nat
  errorCount : Nat
  successRate : ℚ
  errors : List String
  deriving Repr, DecidableEq

/-- Embedding of `WorkerResult` from `src/types.ts` (single-stage mode). -/
structure WorkerResult where
  workerId : Nat
  connectionId : Nat
  recordsInserted : Nat
  dataSizeMB : ℚ
  duration : ℚ
  avgLatencyMs : ℚ
  p50LatencyMs : ℚ
  p95LatencyMs : ℚ
  p99LatencyMs : ℚ
  minLatencyMs : ℚ
  maxLatencyMs : ℚ
  successCount : Nat
  errorCount : Nat
  errors : List String
  deriving Repr, DecidableEq

/-- Embedding of `LatencyMeasurement` from `src/types.ts`. -/
structure LatencyMeasurement where
  startTime : ℚ
  endTime : ℚ
  latency : ℚ
  success : Bool
  error : Option String
  deriving Repr, DecidableEq

/-- The oracle environment of one two-stage run: the settled results of the
asynchronous worker calls, and the two `Date.now()` readings taken around
the copy phase (`copyStartTime`, `copyEndTime`, in milliseconds). -/
structure BenchEnv where
  genOracle : Nat → Nat → FileGenerationResult
  copyOracle : Nat → Nat → String → CopyExecutionResult
  copyStartMs : ℚ
  copyEndMs : ℚ
  timestamp : String

/-- `totalConnections = workers * config.connectionsPerWorker`
(`src/two-stage-benchmark.ts` line 12, with `workers = config.minWorkers`). -/
def totalConnections (config : BenchmarkConfig) : Nat :=
  config.minWorkers * config.connectionsPerWorker

/-- `recordsPerConnection = Math.floor((config.dataSizeMB * 1024 * 1024) /
(totalConnections * 75 * 1024))` (`src/two-stage-benchmark.ts` line 13). -/
def recordsPerConnection (config : BenchmarkConfig) : Nat :=
  config.dataSizeMB * 1024 * 1024 / (totalConnections config * 75 * 1024)

/-- The settled stage-1 results, in the order the generation promises are
pushed: the nested loops over `workerId` and `connectionId`
(`src/two-stage-benchmark.ts` lines 22-30). -/
def generationResults (env : BenchEnv) (config : BenchmarkConfig) :
    List FileGenerationResult :=
  (List.range config.minWorkers).flatMap fun workerId =>
    (List.range config.connectionsPerWorker).map fun connectionId =>
      env.genOracle workerId connectionId

/-- `generationResults.filter(r => r.success)` (line 33). -/
def successfulGenerations (env : BenchEnv) (config : BenchmarkConfig) :
    List FileGenerationResult :=
  (generationResults env config).filter (fun r => r.success)

/-- `generationResults.filter(r => !r.success)` (line 34). -/
def failedGenerations (env : BenchEnv) (config : BenchmarkConfig) :
    List FileGenerationResult :=
  (generationResults env config).filter (fun r => !r.success)

/-- `maxConcurrentCopies = Math.min(10, successfulGenerations.length)`
(`src/two-stage-benchmark.ts` line 55). -/
def maxConcurrentCopies (env : BenchEnv) (config : BenchmarkConfig) : Nat :=
  min 10 (successfulGenerations env config).length

/-- Fuel-driven helper for `chunksOf`.  When the chunk size `k` is nonzero,
every step consumes at least one element, so fuel equal to the list length
is always sufficient (`chunksOfAux_congr` below makes this precise). -/
def chunksOfAux (k : Nat) : Nat → List α → List (List α)
  | 0, _ => []
  | _ + 1, [] => []
  | fuel + 1, x :: xs =>
    (x :: xs).take k :: chunksOfAux k fuel ((x :: xs).drop k)

/-- The batching loop `for (let i = 0; i < n; i += k) slice(i, i + k)`
(`src/two-stage-benchmark.ts` lines 60-61).  For `k = 0` the source loop
would never terminate; that case is unreachable because the coordinator
has already thrown when there are no successful generations. -/
def chunksOf (k : Nat) (xs : List α) : List (List α) :=
  chunksOfAux k xs.length xs

/-- The stage-2 batches of successful generations (lines 60-61). -/
def copyBatches (env : BenchEnv) (config : BenchmarkConfig) :
    List (List FileGenerationResult) :=
  chunksOf (maxConcurrentCopies env config) (successfulGenerations env config)

/-- The collected stage-2 results: only the batch-loop invocations of
`runCopyExecution` are awaited and pushed into `copyResults`
(lines 62-70); the earlier unawaited `copyPromises` wave is discarded. -/
def copyResults (env : BenchEnv) (config : BenchmarkConfig) :
    List CopyExecutionResult :=
  (copyBatches env config).flatMap fun batch =>
    batch.map fun g => env.copyOracle g.workerId g.connectionId g.filePath

/-- Every artifact path passed to `runCopyExecution` during the copy phase,
in dispatch order.  The coordinator first pushes one unawaited
`runCopyExecution` per successful generation into `copyPromises`
(lines 46-52) -- invoking `runCopyExecution` spawns its worker immediately
-- and then invokes `runCopyExecution` again for the same artifacts inside
the batch loop (lines 60-64). -/
def loaderInvocationPaths (env : BenchEnv) (config : BenchmarkConfig) :
    List String :=
  (successfulGenerations env config).map (fun g => g.filePath)
    ++ (copyBatches env config).flatMap (fun batch =>
        batch.map (fun g => g.filePath))

/-- The dispatch rounds of the copy phase: each round is the set of
`runCopyExecution` calls started during one synchronous segment of the
coordinator (between `await Promise.all` barriers).  The unawaited
`copyPromises` wave (lines 46-52) and the first batch (lines 60-64) are
dispatched in the same synchronous segment, before the first barrier, so
they form one round; each later batch is its own round. -/
def copyDispatchRounds (env : BenchEnv) (config : BenchmarkConfig) :
    List (List String) :=
  let wave := (successfulGenerations env config).map (fun g => g.filePath)
  match (copyBatches env config).map (fun b => b.map (fun g => g.filePath)) with
  | [] => [wave]
  | b :: bs => (wave ++ b) :: bs

/-- JavaScript `x.error || dflt`: the fallback is used when `error` is
absent or the empty string (both falsy). -/
def jsOrElse (o : Option String) (dflt : String) : String :=
  match o with
  | none => dflt
  | some s => if s = "" then dflt else s

/-- `copyResults.filter(r => r.success)` (line 79). -/
def successfulCopies (env : BenchEnv) (config : BenchmarkConfig) :
    List CopyExecutionResult :=
  (copyResults env config).filter (fun r => r.success)

/-- `copyResults.filter(r => !r.success)` (line 80). -/
def failedCopies (env : BenchEnv) (config : BenchmarkConfig) :
    List CopyExecutionResult :=
  (copyResults env config).filter (fun r => !r.success)

/-- `copyDuration = (copyEndTime - copyStartTime) / 1000` (line 93). -/
def copyDuration (env : BenchEnv) : ℚ :=
  (env.copyEndMs - env.copyStartMs) / 1000

/-- `avgCopyLatencyMs` (lines 99-101). -/
def avgCopyLatencyMs (env : BenchEnv) (config : BenchmarkConfig) : ℚ :=
  if 0 < (successfulCopies env config).length then
    ((successfulCopies env config).map (fun r => r.executionTimeMs)).sum /
      ((successfulCopies env config).length : ℚ)
  else 0

/-- The error list before capping (lines 103-106). -/
def benchmarkErrors (env : BenchEnv) (config : BenchmarkConfig) :
    List String :=
  (failedGenerations env config).map (fun r => jsOrElse r.error "Generation failed")
    ++ (failedCopies env config).map (fun r => jsOrElse r.error "COPY failed")

/-- The final `BenchmarkResult` record built by the coordinator
(`src/two-stage-benchmark.ts` lines 86-134). -/
def aggregateResult (env : BenchEnv) (config : BenchmarkConfig) :
    BenchmarkResult :=
  let succCopies := successfulCopies env config
  let totalRecords := (succCopies.map (fun r => r.recordsInserted)).sum
  let totalDataSizeMB := (succCopies.map (fun r => r.dataSizeMB)).sum
  let totalSuccessCount := succCopies.length
  let totalErrorCount := (failedCopies env config).length
  let avg := avgCopyLatencyMs env config
  { timestamp := env.timestamp
    workers := config.minWorkers
    connectionsPerWorker := config.connectionsPerWorker
    totalConnections := (successfulGenerations env config).length
    batchSize := recordsPerConnection config
    duration := copyDuration env
    totalRecords := totalRecords
    totalDataSizeMB := totalDataSizeMB
    throughputMBps := totalDataSizeMB / copyDuration env
    throughputRecordsPerSecond := (totalRecords : ℚ) / copyDuration env
    avgLatencyMs := avg
    p50LatencyMs := avg
    p95LatencyMs := avg
    p99LatencyMs := avg
    minLatencyMs := avg
    maxLatencyMs := avg
    successCount := totalSuccessCount
    errorCount := totalErrorCount
    successRate := (totalSuccessCount : ℚ) /
      ((totalSuccessCount : ℚ) + (totalErrorCount : ℚ))
    errors := (benchmarkErrors env config).take 10 }

/-- Embedding of the coordinator `runTwoStageBenchmark`
(`src/two-stage-benchmark.ts` lines 5-147): throw when no generation
succeeded (lines 39-41), otherwise aggregate the awaited copy results into
the final `BenchmarkResult`. -/
def runTwoStageBenchmark (env : BenchEnv) (config : BenchmarkConfig) :
    Except String BenchmarkResult :=
  if (successfulGenerations env config).length = 0 then
    Except.error "No CSV files were generated successfully"
  else
    Except.ok (aggregateResult env config)

/-- `Math.floor` of a non-negative JavaScript number used as an array
index (`Math.floor(latencies.length * 0.5)` and friends). -/
def jsFloorIndex (x : ℚ) : Nat :=
  (Int.floor x).toNat

/-- The percentile convention named by the specification: sort the pooled
latency list and index the sorted copy at `floor(n * percentile)`. -/
def sortIndexPercentile (ls : List ℚ) (p : ℚ) : ℚ :=
  (List.insertionSort (fun a b => a ≤ b) ls).getD
    (jsFloorIndex ((ls.length : ℚ) * p)) 0

/-- The per-worker statistics of the single-stage worker `runBenchmark`
(`src/types.ts` lines 274-295): sort the measured latencies and index the
sorted list at `Math.floor(length * 0.5 / 0.95 / 0.99)`.  Out-of-range
indexing (the empty-measurement case, `undefined` in the source) is
modelled by the default value `0`. -/
def workerLatencyStats (workerId connectionId : Nat) (recordsInserted : Nat)
    (dataSizeMB duration : ℚ) (measurements : List LatencyMeasurement)
    (errorList : List String) : WorkerResult :=
  let latencies :=
    List.insertionSort (fun a b => a ≤ b) (measurements.map (fun m => m.latency))
  { workerId := workerId
    connectionId := connectionId
    recordsInserted := recordsInserted
    dataSizeMB := dataSizeMB
    duration := duration
    avgLatencyMs := latencies.sum / (latencies.length : ℚ)
    p50LatencyMs := latencies.getD (jsFloorIndex ((latencies.length : ℚ) * (1/2))) 0
    p95LatencyMs := latencies.getD (jsFloorIndex ((latencies.length : ℚ) * (95/100))) 0
    p99LatencyMs := latencies.getD (jsFloorIndex ((latencies.length : ℚ) * (99/100))) 0
    minLatencyMs := latencies.getD 0 0
    maxLatencyMs := latencies.getD (latencies.length - 1) 0
    successCount := (measurements.filter (fun m => m.success)).length
    errorCount := (measurements.filter (fun m => !m.success)).length
    errors := errorList.take 10 }

/-- The single-stage (non-staged) aggregation of `runBenchmark` in
`src/index.ts` lines 47-115: sums over the worker results, duration fixed
to `config.testDuration`, and every percentile field set to the average of
the per-worker average latencies. -/
def runSingleStageAggregate (config : BenchmarkConfig) (timestamp : String)
    (workerResults : List WorkerResult) : BenchmarkResult :=
  let totalRecords := (workerResults.map (fun r => r.recordsInserted)).sum
  let totalDataSizeMB := (workerResults.map (fun r => r.dataSizeMB)).sum
  let totalSuccessCount := (workerResults.map (fun r => r.successCount)).sum
  let totalErrorCount := (workerResults.map (fun r => r.errorCount)).sum
  let duration := (config.testDuration : ℚ)
  let avgLatencyMs :=
    (workerResults.map (fun r => r.avgLatencyMs)).sum /
      (workerResults.length : ℚ)
  { timestamp := timestamp
    workers := config.minWorkers
    connectionsPerWorker := config.connectionsPerWorker
    totalConnections := totalConnections config
    batchSize := config.batchSize
    duration := duration
    totalRecords := totalRecords
    totalDataSizeMB := totalDataSizeMB
    throughputMBps := totalDataSizeMB / duration
    throughputRecordsPerSecond := (totalRecords : ℚ) / duration
    avgLatencyMs := avgLatencyMs
    p50LatencyMs := avgLatencyMs
    p95LatencyMs := avgLatencyMs
    p99LatencyMs := avgLatencyMs
    minLatencyMs := avgLatencyMs
    maxLatencyMs := avgLatencyMs
    successCount := totalSuccessCount
    errorCount := totalErrorCount
    successRate := (totalSuccessCount : ℚ) /
      ((totalSuccessCount : ℚ) + (totalErrorCount : ℚ))
    errors := [] }

/-- Embedding of the `CapturedText` record schema (`src/types.ts` lines
1-22) restricted to the 15 fields serialized by `convertToCsvRow`. -/
structure CapturedText where
  taskId : String
  stepIndex : Nat
  name : String
  text : String
  targetNotFound : Bool
  detectedChange : Bool
  comparedToTextId : Option String
  comparedToRecording : Bool
  listId : Option String
  listItemIndex : Option Nat
  listPageNumber : Option Nat
  listPageItemIndex : Option Nat
  attachmentS3Key : Option String
  attachmentMimeType : Option String
  type : String

/-- `str.includes(",") || str.includes(CHR(34)) || str.includes("\n")`
from `escapeCsvValue` (`src/types.ts` line 341); strings are modelled as
character lists. -/
def needsQuoting (s : List Char) : Bool :=
  s.any (fun c => c == ',' || c == '"' || c == '\n')

/-- `str.replace(/"/g, ...)` doubling every embedded quote (line 342). -/
def doubleQuotes : List Char → List Char
  | [] => []
  | c :: cs =>
    if c = '"' then '"' :: '"' :: doubleQuotes cs
    else c :: doubleQuotes cs

/-- `escapeCsvValue` (`src/types.ts` lines 338-345) applied to the string
form of a field value: wrap in quotes, doubling embedded quotes, exactly
when the value contains a comma, a quote, or a newline. -/
def escapeCsvValue (s : List Char) : List Char :=
  if needsQuoting s then '"' :: (doubleQuotes s ++ ['"'])
  else s

/-- `Array.join(",")` on the escaped field strings (line 363). -/
def joinComma : List (List Char) → List Char
  | [] => []
  | [f] => f
  | f :: fs => f ++ ',' :: joinComma fs

/-- JavaScript `String(value)` with `null` mapped to the empty string, for
each field type occurring in the record: the serialization performed by
`escapeCsvValue` before quoting. -/
def jsShowBool (b : Bool) : List Char :=
  if b then "true".data else "false".data

/-- String form of a numeric field. -/
def jsShowNat (n : Nat) : List Char :=
  (Nat.repr n).data

/-- String form of a nullable string field. -/
def jsShowOptStr : Option String → List Char
  | none => []
  | some s => s.data

/-- String form of a nullable numeric field. -/
def jsShowOptNat : Option Nat → List Char
  | none => []
  | some n => (Nat.repr n).data

/-- The 15 serialized field values of a record, in the order listed in
`convertToCsvRow` (`src/types.ts` lines 347-363). -/
def capturedTextFields (c : CapturedText) : List (List Char) :=
  [c.taskId.data,
   jsShowNat c.stepIndex,
   c.name.data,
   c.text.data,
   jsShowBool c.targetNotFound,
   jsShowBool c.detectedChange,
   jsShowOptStr c.comparedToTextId,
   jsShowBool c.comparedToRecording,
   jsShowOptStr c.listId,
   jsShowOptNat c.listItemIndex,
   jsShowOptNat c.listPageNumber,
   jsShowOptNat c.listPageItemIndex,
   jsShowOptStr c.attachmentS3Key,
   jsShowOptStr c.attachmentMimeType,
   c.type.data]

/-- `convertToCsvRow` (`src/types.ts` lines 337-364): escape each of the
15 field values and join them with commas. -/
def convertToCsvRow (c : CapturedText) : List Char :=
  joinComma ((capturedTextFields c).map escapeCsvValue)

/-- Modelled from the spec: the body scanner of a conformant RFC4180
delimited-row parser (the re-parsing collaborator is not part of the
repository).  Inside a quoted field, a doubled quote denotes one embedded
quote and a single quote closes the field; an unterminated quote is
malformed. -/
def parseQuoted : List Char → Option (List Char × List Char)
  | [] => none
  | c :: rest =>
    if c = '"' then
      match rest with
      | [] => some ([], [])
      | r :: rest2 =>
        if r = '"' then (parseQuoted rest2).map (fun p => ('"' :: p.1, p.2))
        else some ([], r :: rest2)
    else (parseQuoted rest).map (fun p => (c :: p.1, p.2))

/-- Modelled from the spec: an unquoted field extends to the next comma or
to the end of the row. -/
def parseUnquoted : List Char → List Char × List Char
  | [] => ([], [])
  | c :: rest =>
    if c = ',' then ([], c :: rest)
    else
      let p := parseUnquoted rest
      (c :: p.1, p.2)

/-- Modelled from the spec: one field of a delimited row -- quoted when it
starts with a quote character, unquoted otherwise. -/
def parseField : List Char → Option (List Char × List Char)
  | [] => some ([], [])
  | c :: rest =>
    if c = '"' then parseQuoted rest
    else some (parseUnquoted (c :: rest))

/-- Modelled from the spec: the fields of one delimited row, separated by
commas; fuelled by the row length (one unit per field suffices). -/
def parseRowAux : Nat → List Char → Option (List (List Char))
  | 0, _ => none
  | fuel + 1, s =>
    match parseField s with
    | none => none
    | some (f, rest) =>
      match rest with
      | [] => some [f]
      | c :: r =>
        if c = ',' then (parseRowAux fuel r).map (fun fs => f :: fs)
        else none

/-- Modelled from the spec: a conformant RFC4180 single-row parser,
returning the list of decoded fields, or nothing on malformed input. -/
def parseRow (s : List Char) : Option (List (List Char)) :=
  parseRowAux (s.length + 1) s

/-- The size-filling loop of `generateLargeJsonText`
(`src/data-generator.ts` lines 196-255), abstracted over the serialized
sizes of the random filler blocks: `incs k` is the standalone serialized
size of the candidate block of iteration `k` (the value compared against
the target on line 246), `deltas k` is the growth of the merged document
when the block is merged (at most `incs k`, since merging drops the
block's outer braces).  The loop keeps the current size while it is below
the target, breaks without merging when the candidate would push the
standalone sum past the target, and merges otherwise.  `none` models the
source looping forever (fuel equal to the target is sufficient whenever
every merge grows the document). -/
def jsonFillLoop (target : Nat) (incs deltas : Nat → Nat) :
    Nat → Nat → Nat → Option Nat
  | 0, _, _ => none
  | fuel + 1, k, cur =>
    if cur < target then
      if target < cur + incs k then some cur
      else jsonFillLoop target incs deltas fuel (k + 1) (cur + deltas k)
    else some cur

/-- A one-worker, one-connection configuration. -/
def cfgOne : BenchmarkConfig :=
  { minWorkers := 1, connectionsPerWorker := 1, batchSize := 100,
    testDuration := 30, dataSizeMB := 100 }

/-- An environment whose single generation succeeds and whose copies all
succeed: the minimal failing input for the double-invocation defect. -/
def envOne : BenchEnv :=
  { genOracle := fun workerId connectionId =>
      { workerId := workerId, connectionId := connectionId,
        filePath := "temp_csv_files/worker_0_conn_0.csv",
        recordsGenerated := 5, fileSizeMB := 1, generationTimeMs := 10,
        success := true, error := none }
    copyOracle := fun workerId connectionId filePath =>
      { workerId := workerId, connectionId := connectionId,
        filePath := filePath, recordsInserted := 5, dataSizeMB := 1,
        executionTimeMs := 10, success := true, error := none }
    copyStartMs := 0, copyEndMs := 1000, timestamp := "t" }

/-- An environment in which every generation worker fails. -/
def envAllFail : BenchEnv :=
  { genOracle := fun workerId connectionId =>
      { workerId := workerId, connectionId := connectionId, filePath := "",
        recordsGenerated := 0, fileSizeMB := 0, generationTimeMs := 3,
        success := false, error := some "EACCES: permission denied" }
    copyOracle := fun workerId connectionId filePath =>
      { workerId := workerId, connectionId := connectionId,
        filePath := filePath, recordsInserted := 0, dataSizeMB := 0,
        executionTimeMs := 0, success := true, error := none }
    copyStartMs := 0, copyEndMs := 1000, timestamp := "t" }

/-- A ten-worker, one-connection configuration: ten generation units. -/
def cfgTen : BenchmarkConfig :=
  { minWorkers := 10, connectionsPerWorker := 1, batchSize := 100,
    testDuration := 30, dataSizeMB := 100 }

/-- Ten generation units of which the last three fail (unwritable
directory), with every copy of a surviving artifact succeeding. -/
def envSevenOfTen : BenchEnv :=
  { genOracle := fun workerId connectionId =>
      if workerId < 7 then
        { workerId := workerId, connectionId := connectionId,
          filePath := "temp_csv_files/f" ++ Nat.repr workerId,
          recordsGenerated := 100, fileSizeMB := 7, generationTimeMs := 40,
          success := true, error := none }
      else
        { workerId := workerId, connectionId := connectionId, filePath := "",
          recordsGenerated := 0, fileSizeMB := 0, generationTimeMs := 2,
          success := false, error := some "EACCES: unwritable directory" }
    copyOracle := fun workerId connectionId filePath =>
      { workerId := workerId, connectionId := connectionId,
        filePath := filePath, recordsInserted := 100, dataSizeMB := 7,
        executionTimeMs := 50, success := true, error := none }
    copyStartMs := 0, copyEndMs := 2000, timestamp := "t" }

/-- A two-worker, one-connection configuration. -/
def cfgTwo : BenchmarkConfig :=
  { minWorkers := 2, connectionsPerWorker := 1, batchSize := 100,
    testDuration := 30, dataSizeMB := 100 }

/-- Two successful generations whose copies succeed with latencies 1 ms
and 3 ms: the pooled latency list is `[1, 3]`. -/
def envTwoLatencies : BenchEnv :=
  { genOracle := fun workerId connectionId =>
      { workerId := workerId, connectionId := connectionId,
        filePath := "temp_csv_files/g" ++ Nat.repr workerId,
        recordsGenerated := 10, fileSizeMB := 1, generationTimeMs := 10,
        success := true, error := none }
    copyOracle := fun workerId connectionId filePath =>
      { workerId := workerId, connectionId := connectionId,
        filePath := filePath, recordsInserted := 10, dataSizeMB := 1,
        executionTimeMs := if workerId = 0 then 1 else 3,
        success := true, error := none }
    copyStartMs := 0, copyEndMs := 1000, timestamp := "t" }

/-- One successful generation loaded as exactly 100 records, with the copy
phase taking 2000 ms: the fixed-delay throughput scenario with a
simulated delay of 2 seconds. -/
def envHundredRecords : BenchEnv :=
  { genOracle := fun workerId connectionId =>
      { workerId := workerId, connectionId := connectionId,
        filePath := "temp_csv_files/worker_0_conn_0.csv",
        recordsGenerated := 100, fileSizeMB := 7, generationTimeMs := 10,
        success := true, error := none }
    copyOracle := fun workerId connectionId filePath =>
      { workerId := workerId, connectionId := connectionId,
        filePath := filePath, recordsInserted := 100, dataSizeMB := 7,
        executionTimeMs := 2000, success := true, error := none }
    copyStartMs := 0, copyEndMs := 2000, timestamp := "t" }

/-- A three-worker, one-connection configuration. -/
def cfgThree : BenchmarkConfig :=
  { minWorkers := 3, connectionsPerWorker := 1, batchSize := 100,
    testDuration := 30, dataSizeMB := 100 }

/-- One successful generation and two generation failures carrying the
same error message. -/
def envDuplicateErrors : BenchEnv :=
  { genOracle := fun workerId connectionId =>
      if workerId = 0 then
        { workerId := workerId, connectionId := connectionId,
          filePath := "temp_csv_files/p0", recordsGenerated := 10,
          fileSizeMB := 1, generationTimeMs := 10,
          success := true, error := none }
      else
        { workerId := workerId, connectionId := connectionId, filePath := "",
          recordsGenerated := 0, fileSizeMB := 0, generationTimeMs := 2,
          success := false, error := some "disk full" }
    copyOracle := fun workerId connectionId filePath =>
      { workerId := workerId, connectionId := connectionId,
        filePath := filePath, recordsInserted := 10, dataSizeMB := 1,
        executionTimeMs := 10, success := true, error := none }
    copyStartMs := 0, copyEndMs := 1000, timestamp := "t" }

/-- A concrete record whose text field embeds a comma, quotes and a
newline. -/
def sampleRecord : CapturedText :=
  { taskId := "3f2b", stepIndex := 4, name := "field_7",
    text := "pre,\"mid\"\npost", targetNotFound := false,
    detectedChange := true, comparedToTextId := none,
    comparedToRecording := false, listId := some "L1",
    listItemIndex := some 3, listPageNumber := none,
    listPageItemIndex := none, attachmentS3Key := none,
    attachmentMimeType := none, type := "innerText" }

theorem chunksOfAux_congr (k : Nat) (hk : k ≠ 0) :
    ∀ (fuel₁ fuel₂ : Nat) (xs : List α), xs.length ≤ fuel₁ →
      xs.length ≤ fuel₂ → chunksOfAux k fuel₁ xs = chunksOfAux k fuel₂ xs := by
  intro fuel₁
  induction fuel₁ with
  | zero =>
    intro fuel₂ xs h₁ _
    have hxs : xs = [] := List.length_eq_zero.mp (Nat.le_zero.mp h₁)
    subst hxs
    cases fuel₂ <;> rfl
  | succ fuel ih =>
    intro fuel₂ xs h₁ h₂
    cases xs with
    | nil => cases fuel₂ <;> rfl
    | cons x tl =>
      cases fuel₂ with
      | zero => simp at h₂
      | succ fuel₂ =>
        simp only [chunksOfAux]
        have hdrop : ((x :: tl).drop k).length ≤ fuel := by
          simp only [List.length_drop, List.length_cons]
          simp only [List.length_cons] at h₁
          omega
        have hdrop₂ : ((x :: tl).drop k).length ≤ fuel₂ := by
          simp only [List.length_drop, List.length_cons]
          simp only [List.length_cons] at h₂
          omega
        rw [ih fuel₂ _ hdrop hdrop₂]

/-- The fuel definition satisfies the recurrence of the source loop. -/
theorem chunksOf_cons (k : Nat) (hk : k ≠ 0) (x : α) (xs : List α) :
    chunksOf k (x :: xs) =
      (x :: xs).take k :: chunksOf k ((x :: xs).drop k) := by
  simp only [chunksOf, List.length_cons, chunksOfAux]
  congr 1
  exact chunksOfAux_congr k hk _ _ _
    (by simp only [List.length_drop, List.length_cons]; omega) le_rfl

theorem chunksOfAux_flatten (k : Nat) (hk : k ≠ 0) :
    ∀ (fuel : Nat) (xs : List α), xs.length ≤ fuel →
      (chunksOfAux k fuel xs).flatten = xs := by
  intro fuel
  induction fuel with
  | zero =>
    intro xs h
    have hxs : xs = [] := List.length_eq_zero.mp (Nat.le_zero.mp h)
    subst hxs; rfl
  | succ fuel ih =>
    intro xs h
    cases xs with
    | nil => rfl
    | cons x tl =>
      simp only [chunksOfAux, List.flatten_cons]
      rw [ih _ (by simp only [List.length_drop, List.length_cons]
                   simp only [List.length_cons] at h; omega)]
      exact List.take_append_drop k (x :: tl)

/-- Concatenating the batches recovers the original list. -/
theorem chunksOf_flatten (k : Nat) (hk : k ≠ 0) (xs : List α) :
    (chunksOf k xs).flatten = xs :=
  chunksOfAux_flatten k hk xs.length xs le_rfl

theorem chunksOfAux_flatMap_map (k : Nat) (hk : k ≠ 0) (f : α → β) :
    ∀ (fuel : Nat) (xs : List α), xs.length ≤ fuel →
      (chunksOfAux k fuel xs).flatMap (fun b => b.map f) = xs.map f := by
  intro fuel
  induction fuel with
  | zero =>
    intro xs h
    have hxs : xs = [] := List.length_eq_zero.mp (Nat.le_zero.mp h)
    subst hxs; rfl
  | succ fuel ih =>
    intro xs h
    cases xs with
    | nil => rfl
    | cons x tl =>
      simp only [chunksOfAux, List.flatMap_cons]
      rw [ih _ (by simp only [List.length_drop, List.length_cons]
                   simp only [List.length_cons] at h; omega)]
      rw [← List.map_append, List.take_append_drop]

/-- Mapping across the batches is mapping across the original list. -/
theorem chunksOf_flatMap_map (k : Nat) (hk : k ≠ 0) (f : α → β)
    (xs : List α) :
    (chunksOf k xs).flatMap (fun b => b.map f) = xs.map f :=
  chunksOfAux_flatMap_map k hk f xs.length xs le_rfl

theorem maxConcurrentCopies_ne_zero (env : BenchEnv) (config : BenchmarkConfig)
    (h : successfulGenerations env config ≠ []) :
    maxConcurrentCopies env config ≠ 0 := by
  have hlen : (successfulGenerations env config).length ≠ 0 :=
    fun h0 => h (List.length_eq_zero.mp h0)
  unfold maxConcurrentCopies
  omega

/-- With at least one successful generation, the collected copy results are
one awaited `runCopyExecution` outcome per successful generation, in
order. -/
theorem copyResults_eq_map (env : BenchEnv) (config : BenchmarkConfig)
    (h : successfulGenerations env config ≠ []) :
    copyResults env config =
      (successfulGenerations env config).map
        (fun g => env.copyOracle g.workerId g.connectionId g.filePath) := by
  unfold copyResults copyBatches
  exact chunksOf_flatMap_map _ (maxConcurrentCopies_ne_zero env config h) _ _

/-- The full invocation trace of the copy phase repeats the successful
artifact paths twice: once for the unawaited `copyPromises` wave and once
for the batch loop. -/
theorem loaderInvocationPaths_eq_double (env : BenchEnv)
    (config : BenchmarkConfig)
    (h : successfulGenerations env config ≠ []) :
    loaderInvocationPaths env config =
      (successfulGenerations env config).map (fun g => g.filePath)
        ++ (successfulGenerations env config).map (fun g => g.filePath) := by
  unfold loaderInvocationPaths copyBatches
  rw [chunksOf_flatMap_map _ (maxConcurrentCopies_ne_zero env config h)]

/-- With at least one successful generation the coordinator reaches the
aggregation step and returns the aggregated result. -/
theorem runTwoStageBenchmark_ok (env : BenchEnv) (config : BenchmarkConfig)
    (h : successfulGenerations env config ≠ []) :
    runTwoStageBenchmark env config = Except.ok (aggregateResult env config) := by
  unfold runTwoStageBenchmark
  rw [if_neg (fun h0 => h (List.length_eq_zero.mp h0))]

/-- C1: the claim says every successfully generated artifact is handed to
`runCopyExecution` exactly once during the copy phase.  Evaluating the
coordinator at a run with a single successful generation shows the
artifact's path is the subject of two `runCopyExecution` invocations: the
unawaited `copyPromises` wave of lines 46-52 and the batch loop of lines
60-64 both invoke the loader on it. -/
theorem claim_C1_artifact_loaded_twice :
    loaderInvocationPaths envOne cfgOne =
      ["temp_csv_files/worker_0_conn_0.csv",
       "temp_csv_files/worker_0_conn_0.csv"] ∧
    (loaderInvocationPaths envOne cfgOne).count
      "temp_csv_files/worker_0_conn_0.csv" = 2 ∧
    ¬ (loaderInvocationPaths envOne cfgOne).count
      "temp_csv_files/worker_0_conn_0.csv" = 1 :=
  ⟨by decide, by decide, by decide⟩

/-- C2: the claim says at most `maxConcurrentCopies = min(10, successes)`
Bulk Loader calls are ever in flight.  At a run with one successful
generation the cap is `1`, yet the first dispatch round -- the synchronous
segment that starts the whole unawaited `copyPromises` wave (lines 46-52)
and the first batch (lines 60-64) before any `await` -- starts `2`
`runCopyExecution` calls, so two loads of the same artifact are in flight
together. -/
theorem claim_C2_concurrency_cap_exceeded :
    maxConcurrentCopies envOne cfgOne = 1 ∧
    (copyDispatchRounds envOne cfgOne).headD [] =
      ["temp_csv_files/worker_0_conn_0.csv",
       "temp_csv_files/worker_0_conn_0.csv"] ∧
    ((copyDispatchRounds envOne cfgOne).headD []).length = 2 ∧
    ¬ ((copyDispatchRounds envOne cfgOne).headD []).length ≤
        maxConcurrentCopies envOne cfgOne :=
  ⟨by decide, by decide, by decide, by decide⟩

/-- C8: when every generation unit fails, the coordinator throws
`"No CSV files were generated successfully"` (line 40) before the copy
phase, no `runCopyExecution` is ever invoked, and no `BenchmarkResult` is
produced. -/
theorem claim_C8_zero_success_aborts_before_any_load (env : BenchEnv)
    (config : BenchmarkConfig)
    (hall : ∀ w c, (env.genOracle w c).success = false) :
    runTwoStageBenchmark env config =
      Except.error "No CSV files were generated successfully" ∧
    loaderInvocationPaths env config = [] := by
  have hsucc : successfulGenerations env config = [] := by
    apply List.filter_eq_nil_iff.mpr
    intro r hr
    simp only [generationResults, List.mem_flatMap, List.mem_map,
      List.mem_range] at hr
    obtain ⟨w, -, c, -, rfl⟩ := hr
    simp [hall w c]
  constructor
  · unfold runTwoStageBenchmark
    rw [hsucc]
    rfl
  · unfold loaderInvocationPaths copyBatches
    rw [hsucc]
    rfl

theorem length_filter_add_length_filter_not (p : α → Bool) (l : List α) :
    (l.filter p).length + (l.filter (fun a => !p a)).length = l.length := by
  induction l with
  | nil => rfl
  | cons x xs ih =>
    by_cases hx : p x = true <;>
      simp [List.filter_cons, hx, ← ih] <;> omega

/-- C3 counterexample: ten generation units, exactly three failing, every
copy of a surviving artifact succeeding.  The final result counts only
copy failures, so `errorCount = 0` (not `≥ 3`) and
`successRate = 7/7 = 1` (not `7/10`). -/
theorem claim_C3_counterexample :
    runTwoStageBenchmark envSevenOfTen cfgTen =
      Except.ok (aggregateResult envSevenOfTen cfgTen) ∧
    (aggregateResult envSevenOfTen cfgTen).successCount = 7 ∧
    (aggregateResult envSevenOfTen cfgTen).errorCount = 0 ∧
    ¬ 3 ≤ (aggregateResult envSevenOfTen cfgTen).errorCount ∧
    ¬ (aggregateResult envSevenOfTen cfgTen).successRate = 7 / 10 := by
  have h1 : (successfulCopies envSevenOfTen cfgTen).length = 7 := by decide
  have h2 : (failedCopies envSevenOfTen cfgTen).length = 0 := by decide
  refine ⟨runTwoStageBenchmark_ok _ _ (by decide), by decide, by decide,
    by decide, ?_⟩
  simp only [aggregateResult, h1, h2]
  norm_num

/-- C3 amended: for a run with 10 generation units of which exactly 3 fail
and all loads succeed, stage 2 collects results for exactly 7 artifacts
and the final result has `successCount = 7`, `errorCount = 0` (generation
failures are not counted in the error count or the success-rate
denominator; only copy failures are), `successRate = 1`, and the 3
generation errors appear in the result's error list. -/
theorem claim_C3_amended (env : BenchEnv) (config : BenchmarkConfig)
    (hgen : (generationResults env config).length = 10)
    (hsucc : (successfulGenerations env config).length = 7)
    (hcopy : ∀ w c p, (env.copyOracle w c p).success = true) :
    runTwoStageBenchmark env config = Except.ok (aggregateResult env config) ∧
    (copyResults env config).length = 7 ∧
    (aggregateResult env config).successCount = 7 ∧
    (aggregateResult env config).errorCount = 0 ∧
    (aggregateResult env config).successRate = 1 ∧
    (aggregateResult env config).errors =
      (failedGenerations env config).map
        (fun r => jsOrElse r.error "Generation failed") ∧
    (failedGenerations env config).length = 3 := by
  have hne : successfulGenerations env config ≠ [] := by
    intro h0
    rw [h0] at hsucc
    simp at hsucc
  have hmap := copyResults_eq_map env config hne
  have hlen : (copyResults env config).length = 7 := by
    rw [hmap, List.length_map, hsucc]
  have hall : ∀ r ∈ copyResults env config, r.success = true := by
    intro r hr
    rw [hmap] at hr
    obtain ⟨g, -, rfl⟩ := List.mem_map.mp hr
    exact hcopy _ _ _
  have hsuccCopies : successfulCopies env config = copyResults env config :=
    List.filter_eq_self.mpr hall
  have hfailCopies : failedCopies env config = [] := by
    apply List.filter_eq_nil_iff.mpr
    intro r hr
    simp [hall r hr]
  have hfailGens : (failedGenerations env config).length = 3 := by
    have := length_filter_add_length_filter_not
      (fun r : FileGenerationResult => r.success) (generationResults env config)
    unfold failedGenerations
    unfold successfulGenerations at hsucc
    omega
  refine ⟨runTwoStageBenchmark_ok env config hne, hlen, ?_, ?_, ?_, ?_, hfailGens⟩
  · simp only [aggregateResult, hsuccCopies, hlen]
  · simp only [aggregateResult, hfailCopies, List.length_nil]
  · simp only [aggregateResult, hsuccCopies, hfailCopies, hlen,
      List.length_nil]
    norm_num
  · simp only [aggregateResult, benchmarkErrors, hfailCopies, List.map_nil,
      List.append_nil]
    apply List.take_of_length_le
    rw [List.length_map, hfailGens]
    omega

/-- Witness for the amended C3 at the concrete seven-of-ten environment. -/
theorem claim_C3_witness :
    (generationResults envSevenOfTen cfgTen).length = 10 ∧
    (successfulGenerations envSevenOfTen cfgTen).length = 7 ∧
    (∀ w c p, (envSevenOfTen.copyOracle w c p).success = true) ∧
    ((aggregateResult envSevenOfTen cfgTen).successCount = 7 ∧
      (aggregateResult envSevenOfTen cfgTen).errorCount = 0 ∧
      (aggregateResult envSevenOfTen cfgTen).successRate = 1) :=
  ⟨by decide, by decide, fun _ _ _ => rfl,
   ⟨(claim_C3_amended envSevenOfTen cfgTen (by decide) (by decide)
       (fun _ _ _ => rfl)).2.2.1,
    (claim_C3_amended envSevenOfTen cfgTen (by decide) (by decide)
       (fun _ _ _ => rfl)).2.2.2.1,
    (claim_C3_amended envSevenOfTen cfgTen (by decide) (by decide)
       (fun _ _ _ => rfl)).2.2.2.2.1⟩⟩

/-- C10: the returned result's `totalConnections` field is set to the
number of successful generation outcomes (`src/two-stage-benchmark.ts`
line 117), not to `workers * connectionsPerWorker`, and its `batchSize`
field is set to the computed `recordsPerConnection` (line 118), not the
configured batch size. -/
theorem claim_C10_result_fields (env : BenchEnv) (config : BenchmarkConfig)
    (h : successfulGenerations env config ≠ []) :
    runTwoStageBenchmark env config = Except.ok (aggregateResult env config) ∧
    (aggregateResult env config).totalConnections =
      (successfulGenerations env config).length ∧
    (aggregateResult env config).batchSize = recordsPerConnection config :=
  ⟨runTwoStageBenchmark_ok env config h, rfl, rfl⟩

/-- Witness for C10 at the seven-of-ten environment, where the two fields
visibly differ from `workers * connectionsPerWorker` and from the
configured batch size. -/
theorem claim_C10_witness :
    successfulGenerations envSevenOfTen cfgTen ≠ [] ∧
    (aggregateResult envSevenOfTen cfgTen).totalConnections =
      (successfulGenerations envSevenOfTen cfgTen).length ∧
    (aggregateResult envSevenOfTen cfgTen).totalConnections = 7 ∧
    totalConnections cfgTen = 10 ∧
    (aggregateResult envSevenOfTen cfgTen).batchSize = 136 ∧
    cfgTen.batchSize = 100 :=
  ⟨by decide,
   (claim_C10_result_fields envSevenOfTen cfgTen (by decide)).2.1,
   by decide, by decide, by decide, by decide⟩

/-- C4 counterexample: a completed two-stage run whose two successful
copies have latencies 1 ms and 3 ms.  The result's `p50LatencyMs` is the
average `2` (lines 99-101 and 125-127 set every percentile field to the
average), while the sort-and-floor-index convention over the pooled
latencies `[1, 3]` yields `3`. -/
theorem claim_C4_counterexample :
    runTwoStageBenchmark envTwoLatencies cfgTwo =
      Except.ok (aggregateResult envTwoLatencies cfgTwo) ∧
    (successfulCopies envTwoLatencies cfgTwo).map
      (fun r => r.executionTimeMs) = [1, 3] ∧
    (aggregateResult envTwoLatencies cfgTwo).p50LatencyMs = 2 ∧
    sortIndexPercentile [1, 3] (1/2) = 3 ∧
    ¬ (aggregateResult envTwoLatencies cfgTwo).p50LatencyMs =
        sortIndexPercentile [1, 3] (1/2) := by
  have hmapLat : (successfulCopies envTwoLatencies cfgTwo).map
      (fun r => r.executionTimeMs) = [1, 3] := by decide
  have hlen : (successfulCopies envTwoLatencies cfgTwo).length = 2 := by
    decide
  have havg : avgCopyLatencyMs envTwoLatencies cfgTwo = 2 := by
    unfold avgCopyLatencyMs
    rw [hmapLat, hlen]
    norm_num
  have hp50 : (aggregateResult envTwoLatencies cfgTwo).p50LatencyMs =
      avgCopyLatencyMs envTwoLatencies cfgTwo := rfl
  have hsorted : List.insertionSort (fun a b => a ≤ b) ([1, 3] : List ℚ) =
      [1, 3] := by
    simp only [List.insertionSort, List.orderedInsert]
    rw [if_pos (by norm_num)]
  have hidx : jsFloorIndex ((([1, 3] : List ℚ).length : ℚ) * (1/2)) = 1 := by
    have h2 : ((([1, 3] : List ℚ).length : ℚ) * (1/2)) = 1 := by
      simp
    rw [jsFloorIndex, h2]
    simp
  have hsp : sortIndexPercentile [1, 3] (1/2) = 3 := by
    unfold sortIndexPercentile
    rw [hsorted, hidx]
    rfl
  refine ⟨runTwoStageBenchmark_ok _ _ (by decide), hmapLat, ?_, hsp, ?_⟩
  · rw [hp50, havg]
  · rw [hp50, havg, hsp]
    norm_num

/-- C4 amended: the final result of a two-stage run sets each of
`p50LatencyMs`, `p95LatencyMs`, `p99LatencyMs` to the average copy
latency, and the single-stage aggregation likewise sets them to the
average of the per-worker average latencies; the sort-and-floor-index
percentile convention is used only inside the per-worker statistics of
the single-stage worker. -/
theorem claim_C4_amended (env : BenchEnv) (config : BenchmarkConfig)
    (h : successfulGenerations env config ≠ [])
    (workerResults : List WorkerResult) (ts : String)
    (ms : List LatencyMeasurement) (wid cid nrec : Nat) (dsz dur : ℚ)
    (errs : List String) :
    runTwoStageBenchmark env config = Except.ok (aggregateResult env config) ∧
    ((aggregateResult env config).p50LatencyMs =
        (aggregateResult env config).avgLatencyMs ∧
      (aggregateResult env config).p95LatencyMs =
        (aggregateResult env config).avgLatencyMs ∧
      (aggregateResult env config).p99LatencyMs =
        (aggregateResult env config).avgLatencyMs) ∧
    ((runSingleStageAggregate config ts workerResults).p50LatencyMs =
        (runSingleStageAggregate config ts workerResults).avgLatencyMs ∧
      (runSingleStageAggregate config ts workerResults).p95LatencyMs =
        (runSingleStageAggregate config ts workerResults).avgLatencyMs ∧
      (runSingleStageAggregate config ts workerResults).p99LatencyMs =
        (runSingleStageAggregate config ts workerResults).avgLatencyMs) ∧
    ((workerLatencyStats wid cid nrec dsz dur ms errs).p50LatencyMs =
        sortIndexPercentile (ms.map (fun m => m.latency)) (1/2) ∧
      (workerLatencyStats wid cid nrec dsz dur ms errs).p95LatencyMs =
        sortIndexPercentile (ms.map (fun m => m.latency)) (95/100) ∧
      (workerLatencyStats wid cid nrec dsz dur ms errs).p99LatencyMs =
        sortIndexPercentile (ms.map (fun m => m.latency)) (99/100)) := by
  refine ⟨runTwoStageBenchmark_ok env config h, ⟨rfl, rfl, rfl⟩,
    ⟨rfl, rfl, rfl⟩, ?_, ?_, ?_⟩ <;>
    simp only [workerLatencyStats, sortIndexPercentile,
      List.length_insertionSort]

/-- Witness for the amended C4 at the two-latency environment. -/
theorem claim_C4_witness :
    successfulGenerations envTwoLatencies cfgTwo ≠ [] ∧
    ((aggregateResult envTwoLatencies cfgTwo).p50LatencyMs =
        (aggregateResult envTwoLatencies cfgTwo).avgLatencyMs ∧
      (aggregateResult envTwoLatencies cfgTwo).p95LatencyMs =
        (aggregateResult envTwoLatencies cfgTwo).avgLatencyMs ∧
      (aggregateResult envTwoLatencies cfgTwo).p99LatencyMs =
        (aggregateResult envTwoLatencies cfgTwo).avgLatencyMs) ∧
    (workerLatencyStats 0 0 0 0 0 [] []).p50LatencyMs =
      sortIndexPercentile (([] : List LatencyMeasurement).map
        (fun m => m.latency)) (1/2) :=
  ⟨by decide,
   (claim_C4_amended envTwoLatencies cfgTwo (by decide) [] "t" [] 0 0 0 0 0
      []).2.1,
   (claim_C4_amended envTwoLatencies cfgTwo (by decide) [] "t" [] 0 0 0 0 0
      []).2.2.2.1⟩

/-- C6: the two-stage result's throughput figures use the load-stage
duration `(copyEndTime - copyStartTime) / 1000` as their only denominator
(lines 93-96); generation time is excluded.  In particular a run whose
copies insert exactly 100 records in a simulated fixed delay of `d`
seconds reports `throughputRecordsPerSecond = 100 / d`. -/
theorem claim_C6_throughput_denominator (env : BenchEnv)
    (config : BenchmarkConfig)
    (h : successfulGenerations env config ≠ []) :
    runTwoStageBenchmark env config = Except.ok (aggregateResult env config) ∧
    (aggregateResult env config).duration =
      (env.copyEndMs - env.copyStartMs) / 1000 ∧
    (aggregateResult env config).throughputMBps =
      (aggregateResult env config).totalDataSizeMB /
        (aggregateResult env config).duration ∧
    (aggregateResult env config).throughputRecordsPerSecond =
      ((aggregateResult env config).totalRecords : ℚ) /
        (aggregateResult env config).duration ∧
    ∀ d : ℚ, 0 < d → env.copyEndMs - env.copyStartMs = 1000 * d →
      (aggregateResult env config).totalRecords = 100 →
      (aggregateResult env config).throughputRecordsPerSecond = 100 / d := by
  refine ⟨runTwoStageBenchmark_ok env config h, rfl, rfl, rfl, ?_⟩
  intro d hd hdur hrec
  have hdd : copyDuration env = d := by
    unfold copyDuration
    rw [hdur, mul_comm, mul_div_assoc]
    norm_num
  have h1 : (aggregateResult env config).throughputRecordsPerSecond =
      ((aggregateResult env config).totalRecords : ℚ) / copyDuration env := rfl
  rw [h1, hrec, hdd]
  norm_num

/-- Witness for C6: one artifact of exactly 100 records loaded during a
2000 ms copy phase reports 50 records per second. -/
theorem claim_C6_witness :
    successfulGenerations envHundredRecords cfgOne ≠ [] ∧
    (aggregateResult envHundredRecords cfgOne).totalRecords = 100 ∧
    (aggregateResult envHundredRecords cfgOne).throughputRecordsPerSecond
      = 50 := by
  have hc := claim_C6_throughput_denominator envHundredRecords cfgOne
    (by decide)
  have h100 : (aggregateResult envHundredRecords cfgOne).totalRecords =
      100 := by decide
  have hdur : envHundredRecords.copyEndMs - envHundredRecords.copyStartMs =
      1000 * 2 := by
    norm_num [envHundredRecords]
  have h50 := hc.2.2.2.2 2 (by norm_num) hdur h100
  refine ⟨by decide, h100, ?_⟩
  rw [h50]
  norm_num

/-- C9 counterexample: two generation failures carrying the same message
produce a result whose error list contains that message twice -- the
capped list is not a list of distinct error strings. -/
theorem claim_C9_counterexample :
    runTwoStageBenchmark envDuplicateErrors cfgThree =
      Except.ok (aggregateResult envDuplicateErrors cfgThree) ∧
    (aggregateResult envDuplicateErrors cfgThree).errors =
      ["disk full", "disk full"] ∧
    ¬ (aggregateResult envDuplicateErrors cfgThree).errors.Nodup :=
  ⟨runTwoStageBenchmark_ok _ _ (by decide), by decide, by decide⟩

/-- C9 amended: every completed two-stage run's result carries the first
ten error strings (not deduplicated) drawn from failed generations
followed by failed copies, and the result -- including its success rate --
is still produced whenever at least one generation succeeded. -/
theorem claim_C9_amended (env : BenchEnv) (config : BenchmarkConfig)
    (h : successfulGenerations env config ≠ []) :
    runTwoStageBenchmark env config = Except.ok (aggregateResult env config) ∧
    (aggregateResult env config).errors = (benchmarkErrors env config).take 10 ∧
    (aggregateResult env config).errors.length ≤ 10 ∧
    (∀ e ∈ (aggregateResult env config).errors,
      e ∈ benchmarkErrors env config) ∧
    (aggregateResult env config).successRate =
      ((aggregateResult env config).successCount : ℚ) /
        (((aggregateResult env config).successCount : ℚ) +
          ((aggregateResult env config).errorCount : ℚ)) := by
  have herr : (aggregateResult env config).errors =
      (benchmarkErrors env config).take 10 := rfl
  refine ⟨runTwoStageBenchmark_ok env config h, herr, ?_, ?_, rfl⟩
  · rw [herr, List.length_take]
    omega
  · intro e he
    rw [herr] at he
    exact List.mem_of_mem_take he

/-- Witness for the amended C9 at the duplicate-error environment. -/
theorem claim_C9_witness :
    successfulGenerations envDuplicateErrors cfgThree ≠ [] ∧
    (aggregateResult envDuplicateErrors cfgThree).errors =
      (benchmarkErrors envDuplicateErrors cfgThree).take 10 ∧
    (aggregateResult envDuplicateErrors cfgThree).errors.length ≤ 10 :=
  ⟨by decide,
   (claim_C9_amended envDuplicateErrors cfgThree (by decide)).2.1,
   (claim_C9_amended envDuplicateErrors cfgThree (by decide)).2.2.1⟩

/-- C5 counterexample: with a chosen target of 51200 bytes (50 KB), a base
document of 2048 bytes and filler blocks of 3000 bytes, the filling loop
stops at 50048 bytes -- strictly below the target, so the claimed lower
bound `minBytes ≤ serializedSize` fails (the loop breaks before a block
would push the size past the target, line 246-248). -/
theorem claim_C5_counterexample :
    jsonFillLoop 51200 (fun _ => 3000) (fun _ => 3000) 100 0 2048 =
      some 50048 ∧
    ¬ (51200 ≤ 50048 ∧ 50048 ≤ 51200 + 3000) :=
  ⟨by decide, by decide⟩

/-- C5 amended: whenever the filling loop of `generateLargeJsonText`
terminates, the final serialized size is at most the chosen target and
undershoots it by less than one maximal filler increment:
`target - maxInc < size ≤ target` (rather than
`target ≤ size ≤ target + inc`). -/
theorem claim_C5_amended (target maxInc fuel k cur res : Nat)
    (incs deltas : Nat → Nat)
    (hdelta : ∀ j, deltas j ≤ incs j)
    (hmax : ∀ j, incs j ≤ maxInc)
    (hpos : 0 < maxInc)
    (hcur : cur ≤ target)
    (hres : jsonFillLoop target incs deltas fuel k cur = some res) :
    res ≤ target ∧ target < res + maxInc := by
  revert hcur hres
  induction fuel generalizing k cur with
  | zero =>
    intro hcur hres
    simp [jsonFillLoop] at hres
  | succ fuel ih =>
    intro hcur hres
    simp only [jsonFillLoop] at hres
    by_cases h1 : cur < target
    · rw [if_pos h1] at hres
      by_cases h2 : target < cur + incs k
      · rw [if_pos h2] at hres
        obtain rfl : cur = res := Option.some_injective _ hres
        refine ⟨hcur, ?_⟩
        have := hmax k
        omega
      · rw [if_neg h2] at hres
        exact ih (k + 1) (cur + deltas k)
          (by have := hdelta k; omega) hres
    · rw [if_neg h1] at hres
      obtain rfl : cur = res := Option.some_injective _ hres
      constructor <;> omega

/-- Witness for the amended C5 bounds at the concrete counterexample
input: `51200 - 3000 < 50048 ≤ 51200`. -/
theorem claim_C5_witness :
    jsonFillLoop 51200 (fun _ => 3000) (fun _ => 3000) 100 0 2048 =
      some 50048 ∧
    50048 ≤ 51200 ∧ 51200 < 50048 + 3000 :=
  ⟨by decide,
   claim_C5_amended 51200 3000 100 0 2048 50048 (fun _ => 3000)
     (fun _ => 3000) (fun _ => le_rfl) (fun _ => le_rfl) (by norm_num)
     (by norm_num) (by decide)⟩

theorem no_comma_of_not_needsQuoting (f : List Char)
    (h : needsQuoting f = false) : ',' ∉ f := by
  intro hmem
  have htrue : needsQuoting f = true := by
    unfold needsQuoting
    rw [List.any_eq_true]
    exact ⟨',', hmem, by decide⟩
  rw [h] at htrue
  exact Bool.false_ne_true htrue

theorem no_quote_of_not_needsQuoting (f : List Char)
    (h : needsQuoting f = false) : '"' ∉ f := by
  intro hmem
  have htrue : needsQuoting f = true := by
    unfold needsQuoting
    rw [List.any_eq_true]
    exact ⟨'"', hmem, by decide⟩
  rw [h] at htrue
  exact Bool.false_ne_true htrue

theorem parseQuoted_cons_ne (a : Char) (ha : a ≠ '"') (X : List Char) :
    parseQuoted (a :: X) =
      (parseQuoted X).map (fun p => (a :: p.1, p.2)) := by
  cases X with
  | nil => simp [parseQuoted, ha]
  | cons d X2 => simp [parseQuoted, ha]

theorem parseQuoted_quote_quote (X : List Char) :
    parseQuoted ('"' :: '"' :: X) =
      (parseQuoted X).map (fun p => ('"' :: p.1, p.2)) := by
  simp [parseQuoted]

theorem parseQuoted_quote_ne (r : Char) (hr : r ≠ '"') (X : List Char) :
    parseQuoted ('"' :: r :: X) = some ([], r :: X) := by
  simp [parseQuoted, hr]

/-- Decoding a quoted field body undoes the quote doubling, provided the
remainder does not itself begin with a quote (in a well-formed row it
begins with a comma or is empty). -/
theorem parseQuoted_roundtrip (f rest : List Char)
    (hrest : ∀ r, rest ≠ '"' :: r) :
    parseQuoted (doubleQuotes f ++ '"' :: rest) = some (f, rest) := by
  induction f with
  | nil =>
    cases rest with
    | nil => rfl
    | cons r rest2 =>
      have hr : r ≠ '"' := fun h => hrest rest2 (by rw [h])
      show parseQuoted ('"' :: r :: rest2) = some ([], r :: rest2)
      exact parseQuoted_quote_ne r hr rest2
  | cons a f ih =>
    by_cases ha : a = '"'
    · subst ha
      show parseQuoted ('"' :: '"' :: (doubleQuotes f ++ '"' :: rest)) =
        some ('"' :: f, rest)
      rw [parseQuoted_quote_quote, ih]
      rfl
    · have hdq : doubleQuotes (a :: f) = a :: doubleQuotes f := by
        simp [doubleQuotes, ha]
      rw [hdq, List.cons_append, parseQuoted_cons_ne a ha, ih]
      rfl

/-- Decoding an unquoted field stops exactly at the separating comma. -/
theorem parseUnquoted_roundtrip (f rest : List Char)
    (hf : ',' ∉ f)
    (hrest : rest = [] ∨ ∃ r, rest = ',' :: r) :
    parseUnquoted (f ++ rest) = (f, rest) := by
  induction f with
  | nil =>
    rcases hrest with rfl | ⟨r, rfl⟩
    · rfl
    · rfl
  | cons a f ih =>
    have ha : a ≠ ',' := fun h => hf (by rw [← h]; exact List.mem_cons_self a f)
    have hf2 : ',' ∉ f := fun h => hf (List.mem_cons_of_mem a h)
    simp [parseUnquoted, ha, ih hf2]

/-- Decoding one escaped field recovers the field and leaves the
remainder (which is empty or starts with the separating comma) intact. -/
theorem parseField_escape (f rest : List Char)
    (hrest : rest = [] ∨ ∃ r, rest = ',' :: r) :
    parseField (escapeCsvValue f ++ rest) = some (f, rest) := by
  unfold escapeCsvValue
  by_cases hq : needsQuoting f = true
  · rw [if_pos hq]
    have hassoc : ('"' :: (doubleQuotes f ++ ['"'])) ++ rest =
        '"' :: (doubleQuotes f ++ '"' :: rest) := by
      simp
    rw [hassoc]
    rw [show parseField ('"' :: (doubleQuotes f ++ '"' :: rest)) =
        parseQuoted (doubleQuotes f ++ '"' :: rest) from rfl]
    apply parseQuoted_roundtrip
    intro r hr
    rcases hrest with rfl | ⟨r2, hr2⟩
    · exact List.cons_ne_nil '"' r hr.symm
    · rw [hr2] at hr
      injection hr with h1 _
      exact absurd h1 (by decide)
  · rw [if_neg hq]
    have hfalse : needsQuoting f = false := by
      simpa using hq
    have hcomma := no_comma_of_not_needsQuoting f hfalse
    cases f with
    | nil =>
      rcases hrest with rfl | ⟨r, rfl⟩
      · rfl
      · rfl
    | cons a f2 =>
      have hquote := no_quote_of_not_needsQuoting _ hfalse
      have ha : a ≠ '"' :=
        fun h => hquote (by rw [← h]; exact List.mem_cons_self a f2)
      have hstep : parseField ((a :: f2) ++ rest) =
          some (parseUnquoted ((a :: f2) ++ rest)) := by
        simp [parseField, ha]
      rw [hstep, parseUnquoted_roundtrip (a :: f2) rest hcomma hrest]

/-- Decoding a whole row of escaped fields recovers every field, given
enough fuel (one unit per field). -/
theorem parseRowAux_roundtrip :
    ∀ (fields : List (List Char)) (fuel : Nat), fields ≠ [] →
      fields.length ≤ fuel →
      parseRowAux fuel (joinComma (fields.map escapeCsvValue)) =
        some fields := by
  intro fields
  induction fields with
  | nil =>
    intro fuel h _
    exact absurd rfl h
  | cons f fs ih =>
    intro fuel _ hlen
    cases fs with
    | nil =>
      cases fuel with
      | zero => simp at hlen
      | succ fuel =>
        simp only [List.map_cons, List.map_nil, joinComma, parseRowAux]
        have hpe := parseField_escape f [] (Or.inl rfl)
        rw [List.append_nil] at hpe
        rw [hpe]
    | cons g gs =>
      cases fuel with
      | zero => simp at hlen
      | succ fuel =>
        simp only [List.map_cons, joinComma, parseRowAux]
        rw [parseField_escape f
          (',' :: joinComma (escapeCsvValue g :: gs.map escapeCsvValue))
          (Or.inr ⟨_, rfl⟩)]
        have hih := ih fuel (List.cons_ne_nil g gs)
          (by simp only [List.length_cons] at hlen ⊢; omega)
        simp only [List.map_cons] at hih
        simp [hih]

/-- A row always has enough length to fuel one parsing step per field. -/
theorem fields_length_le_joinComma (fields : List (List Char)) :
    fields.length ≤ (joinComma (fields.map escapeCsvValue)).length + 1 := by
  induction fields with
  | nil => simp
  | cons f fs ih =>
    cases fs with
    | nil => simp [joinComma]
    | cons g gs =>
      simp only [List.map_cons, joinComma, List.length_cons,
        List.length_append] at ih ⊢
      omega

/-- C7: re-parsing the CSV row of any record with a conformant RFC4180
row parser recovers the record's 15 serialized fields exactly, including
records whose text embeds commas, quotes and newlines. -/
theorem claim_C7_csv_roundtrip (c : CapturedText) :
    parseRow (convertToCsvRow c) = some (capturedTextFields c) := by
  unfold parseRow convertToCsvRow
  apply parseRowAux_roundtrip
  · simp [capturedTextFields]
  · exact fields_length_le_joinComma (capturedTextFields c)

/-- Witness for C7 at a concrete record whose text field embeds a comma,
quotes and a newline. -/
theorem claim_C7_witness :
    parseRow (convertToCsvRow sampleRecord) =
      some (capturedTextFields sampleRecord) :=
  claim_C7_csv_roundtrip sampleRecord

/-- Witness for C8 at a concrete all-failing environment. -/
theorem claim_C8_witness :
    (∀ w c, (envAllFail.genOracle w c).success = false) ∧
    runTwoStageBenchmark envAllFail cfgOne =
      Except.error "No CSV files were generated successfully" ∧
    loaderInvocationPaths envAllFail cfgOne = [] :=
  ⟨fun _ _ => rfl,
   claim_C8_zero_success_aborts_before_any_load envAllFail cfgOne
     (fun _ _ => rfl)⟩

end Benchmark
